import Mathlib

/-!
Verification development for the booking-data-analysis repository.

The repository contains two Apache Beam pipelines:
  * `code/dataflow/bookings_pipeline.py` — class `JSON2CleanTuple` with the pure
    static method `json2tuple`, which turns one booking JSON document into either
    a cross product of passenger and flight dictionaries or an error message;
  * `code/dataflow/airports_pipeline.py` — class `CSV2CleanDict` with the pure
    static method `csv2dict`, which turns one csv line into either a cleaned
    airport dictionary or an error message.

Shallow embedding conventions:
  * JSON values (the result of `json.loads`) are modelled by the inductive `Json`
    below.  Python `None` and JSON `null` are both `Json.null`; Python
    distinguishes `int` and `float`, so the model does as well.
  * Python dictionaries with string keys are association lists
    `List (String × Json)`; key lookup is first-match (keys produced by
    `json.loads` and by the dict literals in the source are distinct).
  * A Python function that can raise an exception which is NOT caught inside the
    modelled code returns `Option _`, where `none` models the uncaught exception
    escaping (crashing the Beam bundle).  Exceptions that the source catches are
    modelled by the corresponding handler branch directly.
  * External library functions are parameters of the embedding:
    `tsOK : String → Bool` models `datetime.strptime` succeeding on one of the two
    accepted formats, `parseFloat : String → Option ℚ` models Python `float(str)`
    on decimal literals (`none` = `ValueError`), and `tzNames : String → Bool`
    models membership in `zoneinfo.available_timezones()`.  Every theorem is
    proved for all instantiations of these parameters and every concrete witness
    fixes them explicitly.
-/

/-- Model of a parsed JSON value / Python object as produced by `json.loads`. -/
inductive Json where
  | null
  | bool (b : Bool)
  | int (n : ℤ)
  | float (q : ℚ)
  | str (s : String)
  | arr (elems : List Json)
  | obj (fields : List (String × Json))

/-- A Python dictionary with string keys and JSON-shaped values. -/
abbrev Dict := List (String × Json)

/-- First-match association-list lookup, the model of `d[k]` succeeding /
`k in d` on dictionaries with distinct keys. -/
def getVal : Dict → String → Option Json
  | [], _ => none
  | (k', v) :: rest, k => if k = k' then some v else getVal rest k

/-- Result of the Python subscript `x[k]` with a string key. -/
inductive Got where
  | found (v : Json)
  /-- `KeyError`: `x` is a dict but the key is absent. -/
  | missing
  /-- `TypeError`: `x` is not a dict (e.g. a list, a string, a number, `None`);
  subscripting with a string key raises `TypeError`, which the booking code
  catches only where it catches broad `Exception`. -/
  | crash

/-- Model of the Python subscript `x[k]` for a string key `k`. -/
def pyGet : Json → String → Got
  | .obj fs, k =>
    match getVal fs k with
    | some v => .found v
    | none => .missing
  | _, _ => .crash

/-- Python truthiness of a JSON-shaped value (`if not x: ...`). -/
def pyTruthy : Json → Bool
  | .null => false
  | .bool b => b
  | .int n => decide (n ≠ 0)
  | .float q => decide (q ≠ 0)
  | .str s => !s.isEmpty
  | .arr xs => !xs.isEmpty
  | .obj fs => !fs.isEmpty

/-- Model of Python iteration `for x in v`: lists yield their elements, strings
yield their characters (as 1-character strings), dicts yield their keys; every
other value raises `TypeError` (`none`). -/
def pyIter : Json → Option (List Json)
  | .arr xs => some xs
  | .str s => some (s.toList.map (fun c => Json.str c.toString))
  | .obj fs => some (fs.map (fun kv => Json.str kv.1))
  | _ => none

/-- Model of Python `len(v)`: defined for strings (number of characters), lists
and dicts; `none` models the `TypeError` raised on other values. -/
def pyLen : Json → Option ℕ
  | .str s => some s.length
  | .arr xs => some xs.length
  | .obj fs => some fs.length
  | _ => none

/-- Model of Python `str.capitalize()`: first character uppercased, the rest
lowercased (the source only feeds it ASCII data). -/
def pyCapitalize (s : String) : String :=
  match s.toList with
  | [] => ""
  | c :: cs => String.mk (c.toUpper :: cs.map Char.toLower)

/-- Model of Python `str.lower()` (ASCII data only, like the source feeds it):
character-wise lowercasing. -/
def pyLower (s : String) : String :=
  String.mk (s.toList.map Char.toLower)

namespace JSON2CleanTuple

/-- `JSON2CleanTuple.check_timestamp` (bookings_pipeline.py:96-120): succeeds
iff `datetime.strptime` accepts the value under one of the two formats
`%Y-%m-%dT%H:%M:%S.%fZ` and `%Y-%m-%dT%H:%M:%SZ`; a non-string argument makes
`strptime` raise, which the broad handler inside the loop turns into
`InvalidTimestampException` as well.  `tsOK` is the external `strptime`
acceptance predicate; `true` means no exception. -/
def check_timestamp (tsOK : String → Bool) : Json → Bool
  | .str s => tsOK s
  | _ => false

/-- `JSON2CleanTuple.check_age` (bookings_pipeline.py:122-137), result `true`
meaning `InvalidAgeException` is raised.  The source condition is
`age < 0 | age > 150`; `|` binds tighter than the comparisons, so Python reads
it as the chained comparison `age < (0 | age) > 150`, i.e.
`age < (0 | age) and (0 | age) > 150`.  For `int` (and `bool`) arguments the
bitwise-or is defined and the comparison never raises; for any other argument
`0 | age` raises `TypeError`, which the broad handler converts to
`InvalidAgeException`. -/
def check_age : Json → Bool
  | .int n => decide (n < Int.lor 0 n ∧ Int.lor 0 n > 150)
  | .bool b =>
    decide ((if b then (1 : ℤ) else 0) < Int.lor 0 (if b then 1 else 0) ∧
      Int.lor 0 (if b then (1 : ℤ) else 0) > 150)
  | _ => true

/-- The six accepted booking statuses, compared after `.lower()`
(bookings_pipeline.py:159-182). -/
def bookingStatuses : List String :=
  ["confirmed", "cancelled", "waiting_list", "on_request", "seat_available", "unaccepted"]

/-- `JSON2CleanTuple.check_booking_status`: `true` iff no exception, i.e. the
(already lowered) argument is one of the six statuses. -/
def check_booking_status (s : String) : Bool :=
  decide (s ∈ bookingStatuses)

/-- `JSON2CleanTuple.check_passenger_type` (bookings_pipeline.py:139-157):
`true` iff no exception, i.e. the (already lowered) argument is
`adt` or `chd`. -/
def check_passenger_type (s : String) : Bool :=
  decide (s ∈ ["adt", "chd"])

/-- `JSON2CleanTuple.check_operating_airline` (bookings_pipeline.py:184-201):
`true` iff no exception, i.e. `len(arg) == 2`; `len` of a value without a
length raises `TypeError`, which the broad handler turns into
`InvalidOperatingAirlineException`. -/
def check_operating_airline (v : Json) : Bool :=
  match pyLen v with
  | some n => decide (n = 2)
  | none => false

/-- `JSON2CleanTuple.check_iata_code` (bookings_pipeline.py:203-221).  The
function body only checks `len(iata_code) == 3` and has **no return
statement**, so on success it falls off the end and returns Python `None`
(`.ok Json.null` here); on any failure it raises
`InvalidIATACodeException` (`.error ()`).  The callers at lines 399-422 bind
the returned value: `origin_airport = check_iata_code(origin_airport)`. -/
def check_iata_code (v : Json) : Except Unit Json :=
  match pyLen v with
  | some 3 => .ok Json.null
  | _ => .error ()

/-- The passenger dict appended at bookings_pipeline.py:337-343. -/
def passengerDict (ts uci age pt : Json) : Dict :=
  [("timestamp", ts), ("uci", uci), ("age", age), ("passenger_type", pt)]

/-- The flight dict appended at bookings_pipeline.py:457-465. -/
def flightDict (bs oa orig dest dep arr : Json) : Dict :=
  [("booking_status", bs), ("operating_airline", oa), ("origin_airport", orig),
   ("destination_airport", dest), ("departure_date", dep), ("arrival_date", arr)]

/-- The value the variable `age` holds after the try/except at
bookings_pipeline.py:315-324: the raw dict value when the key is present —
whether or not `check_age` raised, because the handlers only log and never
reset the variable — and `None` when the key is absent. -/
def ageOf (p : Json) : Json :=
  match pyGet p "age" with
  | .found v => v
  | _ => Json.null

/-- One iteration of the passenger loop (bookings_pipeline.py:304-350).
`none` = an uncaught exception escapes; `some none` = `continue` without
appending; `some (some e)` = entry `e` appended.

Faithfulness notes, keyed to the source:
  * a non-dict passenger makes `passenger["uci"]` raise `TypeError`, which no
    handler catches (only `KeyError` is caught) — crash;
  * the `age` handlers (lines 318-324) only log: the entry receives `ageOf p`,
    which is the raw value even when `check_age` rejected it;
  * the `passengerType` handlers (lines 329-335) likewise only log, so a
    present value is kept raw whether or not `check_passenger_type` raised;
    but `passenger_type.lower()` at line 328 raises `AttributeError` on a
    non-string value, which no handler catches — crash. -/
def processPassenger (ts : Json) (p : Json) : Option (Option Dict) :=
  match pyGet p "uci" with
  | .crash => none
  | .missing => some none
  | .found uci =>
    match pyGet p "passengerType" with
    | .found (.str s) => some (some (passengerDict ts uci (ageOf p) (.str s)))
    | .found _ => none
    | _ => some (some (passengerDict ts uci (ageOf p) Json.null))

/-- The whole passenger loop: crash propagates, skipped passengers contribute
nothing, entries keep list order. -/
def processPassengers (ts : Json) : List Json → Option (List Dict)
  | [] => some []
  | p :: rest =>
    match processPassenger ts p with
    | none => none
    | some r =>
      match processPassengers ts rest with
      | none => none
      | some rs =>
        some (match r with
          | some e => e :: rs
          | none => rs)

/-- The value the variable `origin_airport` resp. `destination_airport` holds
after the try/except at bookings_pipeline.py:399-410 resp. 411-422: the
variable is **reassigned with the return value of `check_iata_code`**, which
is `None` on success, and the handlers store `None` on invalid/missing — so
the result is `None` in every case. -/
def airportFieldOf (flight : Json) (key : String) : Json :=
  match pyGet flight key with
  | .found v =>
    match check_iata_code v with
    | .ok r => r
    | .error _ => Json.null
  | _ => Json.null

/-- One iteration of the product loop (bookings_pipeline.py:358-471).
`none` = an uncaught exception escapes; `some none` = `continue`;
`some (some e)` = flight entry `e` appended.

Faithfulness notes, keyed to the source:
  * a non-dict product makes `product["flight"]` raise `TypeError` — crash;
  * `booking_status.lower()` (line 375) on a non-string raises
    `AttributeError` — crash; an invalid or missing `bookingStatus` skips the
    product; the entry keeps the **raw** (unlowered) value;
  * `flight["operatingAirline"]` on a non-dict `flight` raises `TypeError` —
    crash (reached only after the `bookingStatus` step); an invalid or missing
    value skips the product, the entry keeps the raw value;
  * `originAirport`/`destinationAirport` become `airportFieldOf` values, see
    its note;
  * a present but rejected `departureDate`/`arrivalDate` skips the product,
    a missing one stays `None`, a valid one is kept raw. -/
def processProduct (tsOK : String → Bool) (prod : Json) : Option (Option Dict) :=
  match pyGet prod "flight" with
  | .crash => none
  | .missing => some none
  | .found flight =>
    match pyGet prod "bookingStatus" with
    | .found (.str s) =>
      if check_booking_status (pyLower s) then
        match pyGet flight "operatingAirline" with
        | .crash => none
        | .missing => some none
        | .found oa =>
          if check_operating_airline oa then
            match pyGet flight "departureDate" with
            | .found d =>
              if check_timestamp tsOK d then
                match pyGet flight "arrivalDate" with
                | .found a =>
                  if check_timestamp tsOK a then
                    some (some (flightDict (.str s) oa
                      (airportFieldOf flight "originAirport")
                      (airportFieldOf flight "destinationAirport") d a))
                  else some none
                | _ => some (some (flightDict (.str s) oa
                    (airportFieldOf flight "originAirport")
                    (airportFieldOf flight "destinationAirport") d Json.null))
              else some none
            | _ =>
              match pyGet flight "arrivalDate" with
              | .found a =>
                if check_timestamp tsOK a then
                  some (some (flightDict (.str s) oa
                    (airportFieldOf flight "originAirport")
                    (airportFieldOf flight "destinationAirport") Json.null a))
                else some none
              | _ => some (some (flightDict (.str s) oa
                  (airportFieldOf flight "originAirport")
                  (airportFieldOf flight "destinationAirport") Json.null Json.null))
          else some none
      else some none
    | .found _ => none
    | _ => some none

/-- The whole product loop. -/
def processProducts (tsOK : String → Bool) : List Json → Option (List Dict)
  | [] => some []
  | p :: rest =>
    match processProduct tsOK p with
    | none => none
    | some r =>
      match processProducts tsOK rest with
      | none => none
      | some rs =>
        some (match r with
          | some e => e :: rs
          | none => rs)

/-- The nested extraction
`bookings["event"]["DataElement"]["travelrecord"]["passengersList"]` followed
by the emptiness test (bookings_pipeline.py:280-290).  The whole block is
wrapped in a broad `except Exception`, so `KeyError` and `TypeError` alike
land in the rejection branch (`none`); a falsy list also raises there
(`ValueError`). -/
def getPassengers (j : Json) : Option Json :=
  match pyGet j "event" with
  | .found e =>
    match pyGet e "DataElement" with
    | .found d =>
      match pyGet d "travelrecord" with
      | .found t =>
        match pyGet t "passengersList" with
        | .found p => if pyTruthy p then some p else none
        | _ => none
      | _ => none
    | _ => none
  | _ => none

/-- Same for `productsList` (bookings_pipeline.py:292-301). -/
def getProducts (j : Json) : Option Json :=
  match pyGet j "event" with
  | .found e =>
    match pyGet e "DataElement" with
    | .found d =>
      match pyGet d "travelrecord" with
      | .found t =>
        match pyGet t "productsList" with
        | .found p => if pyTruthy p then some p else none
        | _ => none
      | _ => none
    | _ => none
  | _ => none

/-- Python dict union `a | b` (bookings_pipeline.py:485): keys of `a` in their
order with values overridden by `b` where present, followed by the keys only
in `b`. -/
def dictUnion (a b : Dict) : Dict :=
  (a.map (fun kv =>
    match getVal b kv.1 with
    | some v => (kv.1, v)
    | none => kv)) ++
  b.filter (fun kv => (getVal a kv.1).isNone)

/-- `list(itertools.product(passenger_entries, flight_entries))` mapped through
`i[0] | i[1]` (bookings_pipeline.py:482-485): for each passenger in order, one
merged row per flight in order. -/
def crossRows : List Dict → List Dict → List Dict
  | [], _ => []
  | p :: ps, fes => fes.map (fun f => dictUnion p f) ++ crossRows ps fes

/-- The exact string of the literal at bookings_pipeline.py:354-355.  The
literal is single-quoted and uses `"\` + newline inside it, so the backslash
is a line continuation **inside the string**: the two `"` characters and the
26 spaces of indentation of the continuation line are part of the value. -/
def emptyPassengerMsg : String :=
  "Empty passenger list after processing \"                          \"non-empty json passenger list"

/-- The exact string of the literal at bookings_pipeline.py:475-477, mangled
the same way (two continuations, 37 spaces of indentation each). -/
def emptyFlightMsg : String :=
  "Empty flight list \"                                     \"after processing non-empty json \"                                     \"product list"

/-- The result object of `json2tuple`: either a list of clean rows (the
source materialises a generator; `process` turns it into a tuple) or an error
message. -/
inductive Output where
  | result (rows : List Dict)
  | error (msg : String)

/-- `JSON2CleanTuple.json2tuple` (bookings_pipeline.py:223-487).  The argument
is the outcome of `json.loads` on the raw element: `none` when parsing raised
(rejected as `Invalid json`), `some j` otherwise.  The function returns
`none` when an uncaught exception escapes (see the notes on the loop bodies
and on the `bookings["timestamp"]` subscript, whose handlers catch only
`InvalidTimestampException` and `KeyError`). -/
def json2tuple (tsOK : String → Bool) (doc : Option Json) : Option Output :=
  match doc with
  | none => some (.error "Invalid json")
  | some bookings =>
    match pyGet bookings "timestamp" with
    | .crash => none
    | .missing => some (.error "Missing timestamp")
    | .found ts =>
      if check_timestamp tsOK ts then
        match getPassengers bookings with
        | none => some (.error "Missing or empty list of passengers")
        | some psv =>
          match getProducts bookings with
          | none => some (.error "Missing or empty list of products")
          | some prodv =>
            match pyIter psv with
            | none => none
            | some plist =>
              match processPassengers ts plist with
              | none => none
              | some pes =>
                if pes.isEmpty then some (.error emptyPassengerMsg)
                else
                  match pyIter prodv with
                  | none => none
                  | some flist =>
                    match processProducts tsOK flist with
                    | none => none
                    | some fes =>
                      if fes.isEmpty then some (.error emptyFlightMsg)
                      else some (.result (crossRows pes fes))
      else some (.error "Invalid timestamp")

/-- A value yielded by `JSON2CleanTuple.process` on one of the two tagged
outputs (bookings_pipeline.py:49-76). -/
inductive Tagged where
  | proper (rows : List Dict)
  | incorrect (json : String) (error : String)

/-- `JSON2CleanTuple.process`: `element` is the raw json string, `parsed` the
outcome of `json.loads` on it (`none` = parse failure).  `output.result` is
either `None` or a generator object, and a generator is always truthy, so the
branch test `if output.result:` selects the proper channel exactly when
`json2tuple` produced a result.  `none` models `json2tuple` raising, in which
case the `DoFn` yields nothing on either channel. -/
def process (tsOK : String → Bool) (element : String) (parsed : Option Json) :
    Option (List Tagged) :=
  match json2tuple tsOK parsed with
  | none => none
  | some (.result rows) => some [.proper rows]
  | some (.error e) => some [.incorrect element (toString e)]

end JSON2CleanTuple

namespace CSV2CleanDict

/-- The dictionary produced by `csv.DictReader` for one line
(airports_pipeline.py:359-379) with the 14 fixed field names.  `DictReader`
always includes every field name as a key: a short row fills the missing
trailing fields with the default `restval`, which is `None` (`none` here), and
the extra fields of a long row are collected under the `restkey` `None` and
never looked at. -/
structure RawAirport where
  airport_id : Option String
  name : Option String
  city : Option String
  country : Option String
  iata : Option String
  icao : Option String
  latitude : Option String
  longitude : Option String
  altitude : Option String
  timezone_hours : Option String
  dst : Option String
  timezone_string : Option String
  type : Option String
  source : Option String

/-- `csv.DictReader` row construction from the delimited fields of the line. -/
def dictReader (fields : List String) : RawAirport :=
  { airport_id := fields.get? 0
    name := fields.get? 1
    city := fields.get? 2
    country := fields.get? 3
    iata := fields.get? 4
    icao := fields.get? 5
    latitude := fields.get? 6
    longitude := fields.get? 7
    altitude := fields.get? 8
    timezone_hours := fields.get? 9
    dst := fields.get? 10
    timezone_string := fields.get? 11
    type := fields.get? 12
    source := fields.get? 13 }

/-- `CSV2CleanDict.check_iata_code` (airports_pipeline.py:104-124) followed by
the warning handlers at lines 419-430: a string of length 3 is kept, anything
else (including the `None` of a short row, rejected by the `isinstance`
check) becomes `None`. -/
def cleanIata : Option String → Option String
  | some s => if s.length = 3 then some s else none
  | none => none

/-- `CSV2CleanDict.check_icao_code` (airports_pipeline.py:126-146) with the
handlers at lines 432-443: keep strings of length 4, else `None`. -/
def cleanIcao : Option String → Option String
  | some s => if s.length = 4 then some s else none
  | none => none

/-- `CSV2CleanDict.check_latitude` (airports_pipeline.py:148-166) on the raw
dict value: `float(None)` and an unparsable string raise, and so does a value
outside `[-90, 90]` (the source tests `latitude > 90 or latitude < -90`).
`some q` is the parsed value of a passing field. -/
def check_latitude (parseFloat : String → Option ℚ) : Option String → Option ℚ
  | some s =>
    match parseFloat s with
    | some q => if q > 90 ∨ q < -90 then none else some q
    | none => none
  | none => none

/-- `CSV2CleanDict.check_longitude` (airports_pipeline.py:168-187),
range `[-180, 180]`. -/
def check_longitude (parseFloat : String → Option ℚ) : Option String → Option ℚ
  | some s =>
    match parseFloat s with
    | some q => if q > 180 ∨ q < -180 then none else some q
    | none => none
  | none => none

/-- `CSV2CleanDict.check_altitude` (airports_pipeline.py:189-209),
range `[-1641, 29528]`. -/
def check_altitude (parseFloat : String → Option ℚ) : Option String → Option ℚ
  | some s =>
    match parseFloat s with
    | some q => if q > 29528 ∨ q < -1641 then none else some q
    | none => none
  | none => none

/-- `CSV2CleanDict.check_timezone_hours` (airports_pipeline.py:211-230) with
the handlers at lines 490-502: a passing value is stored as `float(tmp)`
— **not rounded** (line 493) — and any failure stores `None`. -/
def check_timezone_hours (parseFloat : String → Option ℚ) : Option String → Option ℚ
  | some s =>
    match parseFloat s with
    | some q => if q < -26 ∨ q > 26 then none else some q
    | none => none
  | none => none

/-- `CSV2CleanDict.check_dst` (airports_pipeline.py:232-252) with the handlers
at lines 504-516: a value whose `capitalize()` is one of the seven codes is
stored capitalized, anything else becomes `None`. -/
def cleanDst : Option String → Option String
  | some s =>
    if pyCapitalize s ∈ ["E", "A", "S", "O", "Z", "N", "U"] then some (pyCapitalize s)
    else none
  | none => none

/-- `CSV2CleanDict.check_timezone_string` (airports_pipeline.py:254-275) with
the handlers at lines 518-529: membership in `zoneinfo.available_timezones()`
is the external predicate `tzNames`; a passing value is kept unchanged,
anything else becomes `None`. -/
def cleanTzString (tzNames : String → Bool) : Option String → Option String
  | some s => if tzNames s then some s else none
  | none => none

/-- `CSV2CleanDict.check_type` (airports_pipeline.py:277-300) as used at lines
531-543: a string whose `lower()` is one of the four type values passes and is
stored lowered; `None` (short row) fails the `isinstance` check.  Failure is
record-fatal. -/
def check_type : Option String → Option String
  | some s =>
    if pyLower s ∈ ["airport", "station", "port", "unknown"] then some (pyLower s)
    else none
  | none => none

/-- `CSV2CleanDict.check_source` (airports_pipeline.py:302-323) as used at
lines 545-557: a string whose `lower()` is one of the three source values
passes and is stored lowered.  Failure is record-fatal, and the handler at
line 553 returns the reason string `Invalid type` (sic). -/
def check_source : Option String → Option String
  | some s =>
    if pyLower s ∈ ["ourairports", "legacy", "user"] then some (pyLower s)
    else none
  | none => none

/-- Round half to even on ℚ, the tie rule of Python `round`. -/
def roundHalfEven (x : ℚ) : ℤ :=
  let f := ⌊x⌋
  let r := x - f
  if r < 1/2 then f
  else if 1/2 < r then f + 1
  else if f % 2 = 0 then f else f + 1

/-- Model of `round(x, 9)` (airports_pipeline.py:449, 464, 479): round to 9
decimal digits of scale, i.e. `roundHalfEven (q * 10^9) / 10^9` (the `mkRat`
spelling of that quotient is proved equal to the division in `round9_eq_div`
below).  The model works with exact rationals; the source works with binary
doubles, whose representation error is irrelevant to the scale claims checked
here. -/
def round9 (q : ℚ) : ℚ :=
  mkRat (roundHalfEven (q * 10 ^ 9)) (10 ^ 9)

/-- The cleaned airport dictionary returned on success
(airports_pipeline.py:559-561).  `airport_id` and `country` are carried from
the csv without any validation or transformation. -/
structure CleanAirport where
  airport_id : Option String
  name : String
  city : String
  country : Option String
  iata : Option String
  icao : Option String
  latitude : ℚ
  longitude : ℚ
  altitude : ℚ
  timezone_hours : Option ℚ
  dst : Option String
  timezone_string : Option String
  type : String
  source : String
deriving DecidableEq

/-- The result object of `csv2dict`. -/
inductive AOutput where
  | result (a : CleanAirport)
  | error (msg : String)
deriving DecidableEq

/-- `CSV2CleanDict.csv2dict` (airports_pipeline.py:325-561) on the delimited
fields of one line.  An empty line yields no row from the csv reader, so
`next(reader)` raises `StopIteration`, caught by the broad handler — reason
`Invalid csv` (lines 359-384); this is the only way that reason arises, since
`DictReader` itself never raises on a wrong field count.  All `Missing ...`
branches for the 14 named fields are unreachable because `DictReader` always
populates every key; `airport_id` gets no further check.  `name` and `city`
only pass an `isinstance(_, str)` check, which the `None` of a short row
fails.  The fatal numeric fields are rounded to scale 9 when stored; the
warning-tier fields are substituted by the clean* functions above; note that
a failing `source` returns `Invalid type` (line 553). -/
def csv2dict (parseFloat : String → Option ℚ) (tzNames : String → Bool)
    (fields : List String) : AOutput :=
  match fields with
  | [] => .error "Invalid csv"
  | _ :: _ =>
    match (dictReader fields).name with
    | none => .error "name is not a string"
    | some nm =>
      match (dictReader fields).city with
      | none => .error "city is not a string"
      | some ct =>
        match check_latitude parseFloat (dictReader fields).latitude with
        | none => .error "Invalid latitude"
        | some lat =>
          match check_longitude parseFloat (dictReader fields).longitude with
          | none => .error "Invalid longitude"
          | some lon =>
            match check_altitude parseFloat (dictReader fields).altitude with
            | none => .error "Invalid altitude"
            | some alt =>
              match check_type (dictReader fields).type with
              | none => .error "Invalid type"
              | some ty =>
                match check_source (dictReader fields).source with
                | none => .error "Invalid type"
                | some src =>
                  .result
                    { airport_id := (dictReader fields).airport_id
                      name := nm
                      city := ct
                      country := (dictReader fields).country
                      iata := cleanIata (dictReader fields).iata
                      icao := cleanIcao (dictReader fields).icao
                      latitude := round9 lat
                      longitude := round9 lon
                      altitude := round9 alt
                      timezone_hours := check_timezone_hours parseFloat (dictReader fields).timezone_hours
                      dst := cleanDst (dictReader fields).dst
                      timezone_string := cleanTzString tzNames (dictReader fields).timezone_string
                      type := ty
                      source := src }

/-- A value yielded by `CSV2CleanDict.process` on one of the two tagged
outputs (airports_pipeline.py:49-75). -/
inductive Tagged where
  | proper (a : CleanAirport)
  | incorrect (csv : String) (error : String)

/-- `CSV2CleanDict.process`: the result dictionary always has its 14 keys and
is therefore truthy, so `if output.result:` selects the proper channel exactly
on success.  `csv2dict` is total — no exception escapes it — so the airports
`DoFn` always yields exactly one tagged value. -/
def process (parseFloat : String → Option ℚ) (tzNames : String → Bool)
    (element : String) (fields : List String) : List Tagged :=
  match csv2dict parseFloat tzNames fields with
  | .result a => [.proper a]
  | .error e => [.incorrect element e]

end CSV2CleanDict

namespace JSON2CleanTuple

/-- Concrete instantiation of the external `strptime` oracle for the sample
inputs below: accept every timestamp string. -/
def tsOKall : String → Bool := fun _ => true

/-- The shared timestamp of the sample events. -/
def ts1 : Json := .str "2024-03-20T11:08:06.557000Z"

/-- A fully valid passenger. -/
def pass1 : Json := .obj [("uci", .str "u1"), ("age", .int 30), ("passengerType", .str "Adt")]

/-- A passenger with only a `uci`. -/
def pass2 : Json := .obj [("uci", .str "u2")]

/-- A passenger whose `age` and `passengerType` are present but invalid. -/
def pass3 : Json := .obj [("uci", .str "u3"), ("age", .str "abc"), ("passengerType", .str "xyz")]

/-- A passenger whose `uci` key is present with JSON `null`. -/
def pass5 : Json := .obj [("uci", Json.null)]

/-- A flight object with valid 3-character airport codes. -/
def flight1 : Json := .obj [("operatingAirline", .str "KL"), ("originAirport", .str "AMS"),
  ("destinationAirport", .str "JFK"), ("departureDate", .str "2024-01-01T10:00:00Z")]

def prod1 : Json := .obj [("bookingStatus", .str "CONFIRMED"), ("flight", flight1)]

def prod2 : Json := .obj [("bookingStatus", .str "Cancelled"),
  ("flight", .obj [("operatingAirline", .str "AF")])]

/-- A booking event with timestamp `ts1` and the given passenger and product
lists, shaped as `json.loads` shapes the source documents. -/
def mkEvent (ps prods : List Json) : Json :=
  .obj [("timestamp", ts1),
    ("event", .obj [("DataElement", .obj [("travelrecord", .obj [
      ("passengersList", .arr ps), ("productsList", .arr prods)])])])]

def event1 : Json := mkEvent [pass1, pass2] [prod1, prod2]

def event4 : Json := mkEvent [pass3] [prod2]

def event5 : Json := mkEvent [pass5] [prod2]

/-- Gates pass but the single passenger has no `uci`, so none survives. -/
def event6p : Json := mkEvent [Json.obj []] [prod2]

/-- Gates pass but the single product has no `flight`, so none survives. -/
def event6f : Json := mkEvent [pass2] [Json.obj []]

/-- The passenger entries surviving from `event1`. -/
def pes1 : List Dict := [passengerDict ts1 (.str "u1") (.int 30) (.str "Adt"),
  passengerDict ts1 (.str "u2") Json.null Json.null]

/-- The flight entry surviving from `prod1`. -/
def fe1 : Dict := flightDict (.str "CONFIRMED") (.str "KL") Json.null Json.null
  (.str "2024-01-01T10:00:00Z") Json.null

/-- The flight entry surviving from `prod2`. -/
def fe2 : Dict := flightDict (.str "Cancelled") (.str "AF") Json.null Json.null
  Json.null Json.null

/-- The flight entries surviving from `event1`. -/
def fes1 : List Dict := [fe1, fe2]

end JSON2CleanTuple

namespace CSV2CleanDict

/-- Concrete instantiation of the `float()` parameter for the sample rows:
the finitely many numeric literals they contain. -/
def pfC : String → Option ℚ := fun s =>
  if s = "50.1" then some (mkRat 501 10)
  else if s = "4.5" then some (mkRat 9 2)
  else if s = "13" then some 13
  else if s = "1.5" then some (mkRat 3 2)
  else if s = "5.12345678901" then some (mkRat 512345678901 100000000000)
  else none

/-- Concrete instantiation of the timezone-name oracle: accept everything. -/
def tzC : String → Bool := fun _ => true

/-- A valid airport row followed by one extra field (15 fields). -/
def airfields15 : List String := ["1", "Airport", "City", "NL", "AMS", "EHAM",
  "50.1", "4.5", "13", "1.5", "E", "Europe/Amsterdam", "airport", "OurAirports", "extra"]

/-- An airport row truncated to 13 fields (no `source`). -/
def airfields13 : List String := ["1", "Airport", "City", "NL", "AMS", "EHAM",
  "50.1", "4.5", "13", "1.5", "E", "Europe/Amsterdam", "airport"]

/-- A valid 14-field airport row whose `timezone_hours` has 11 decimal
digits of scale. -/
def airfields9 : List String := ["1", "Airport", "City", "NL", "AMS", "EHAM",
  "50.1", "4.5", "13", "5.12345678901", "E", "Europe/Amsterdam", "airport", "OurAirports"]

/-- A 14-field airport row whose `source` is present but not one of the three
accepted values. -/
def airfieldsBadSource : List String := ["1", "Airport", "City", "NL", "AMS", "EHAM",
  "50.1", "4.5", "13", "1.5", "E", "Europe/Amsterdam", "airport", "BadSource"]

/-- The clean output of `airfields15` under `pfC`/`tzC`. -/
def cleanAir15 : CleanAirport :=
  { airport_id := some "1"
    name := "Airport"
    city := "City"
    country := some "NL"
    iata := some "AMS"
    icao := some "EHAM"
    latitude := round9 (mkRat 501 10)
    longitude := round9 (mkRat 9 2)
    altitude := round9 13
    timezone_hours := some (mkRat 3 2)
    dst := some "E"
    timezone_string := some "Europe/Amsterdam"
    type := "airport"
    source := "ourairports" }

/-- The clean output of `airfields9` under `pfC`/`tzC`; its `timezone_hours`
is the parsed value, untouched by `round9`. -/
def cleanAir9 : CleanAirport :=
  { airport_id := some "1"
    name := "Airport"
    city := "City"
    country := some "NL"
    iata := some "AMS"
    icao := some "EHAM"
    latitude := round9 (mkRat 501 10)
    longitude := round9 (mkRat 9 2)
    altitude := round9 13
    timezone_hours := some (mkRat 512345678901 100000000000)
    dst := some "E"
    timezone_string := some "Europe/Amsterdam"
    type := "airport"
    source := "ourairports" }

/-- `q` has at most 9 decimal digits of scale: `q * 10^9` is an integer. -/
def hasScale9 (q : ℚ) : Prop := ∃ n : ℤ, q * 10 ^ 9 = (n : ℚ)

end CSV2CleanDict

section Lemmas

open JSON2CleanTuple

theorem getVal_append_of_some {a : Dict} {k : String} {v : Json} (b : Dict)
    (h : getVal a k = some v) : getVal (a ++ b) k = some v := by
  induction a with
  | nil => simp [getVal] at h
  | cons kv rest ih =>
    obtain ⟨k', w⟩ := kv
    by_cases hk : k = k'
    · simp [getVal, hk] at h ⊢
      exact h
    · simp [getVal, hk] at h ⊢
      exact ih h

theorem getVal_append_of_none {a : Dict} {k : String} (b : Dict)
    (h : getVal a k = none) : getVal (a ++ b) k = getVal b k := by
  induction a with
  | nil => simp
  | cons kv rest ih =>
    obtain ⟨k', w⟩ := kv
    by_cases hk : k = k'
    · simp [getVal, hk] at h
    · simp [getVal, hk] at h ⊢
      exact ih h

theorem getVal_unionMap (a b : Dict) (k : String) :
    getVal (a.map (fun kv =>
      match getVal b kv.1 with
      | some v => (kv.1, v)
      | none => kv)) k =
    match getVal b k with
    | some v => (getVal a k).map (fun _ => v)
    | none => getVal a k := by
  induction a with
  | nil => cases h : getVal b k <;> simp [getVal]
  | cons kv rest ih =>
    obtain ⟨k', w⟩ := kv
    by_cases hk : k = k'
    · subst hk
      cases h : getVal b k <;> simp [getVal, h] at ih ⊢ <;> try simp [ih]
    · cases h : getVal b k <;>
        cases h' : getVal b k' <;>
          simp [getVal, h, h', hk] at ih ⊢ <;> simp [ih]

theorem getVal_filter_of_none (a b : Dict) (k : String) (h : getVal a k = none) :
    getVal (b.filter (fun kv => (getVal a kv.1).isNone)) k = getVal b k := by
  induction b with
  | nil => simp
  | cons kv rest ih =>
    obtain ⟨k', w⟩ := kv
    by_cases hk : k = k'
    · subst hk
      simp [List.filter, h, getVal]
    · cases hp : (getVal a k').isNone <;>
        simp [List.filter, hp, getVal, hk, ih]

theorem getVal_filter_of_some (a b : Dict) (k : String) {v : Json}
    (h : getVal a k = some v) :
    getVal (b.filter (fun kv => (getVal a kv.1).isNone)) k = none := by
  induction b with
  | nil => simp [getVal]
  | cons kv rest ih =>
    obtain ⟨k', w⟩ := kv
    by_cases hk : k = k'
    · subst hk
      simp [List.filter, h, getVal, ih]
    · cases hp : (getVal a k').isNone <;>
        simp [List.filter, hp, getVal, hk, ih]

/-- Keys present in `b` take the value of `b` in `a | b`: the right operand of
the Python dict union wins. -/
theorem getVal_dictUnion_right (a b : Dict) (k : String) {v : Json}
    (h : getVal b k = some v) : getVal (dictUnion a b) k = some v := by
  unfold dictUnion
  cases ha : getVal a k with
  | some w =>
    apply getVal_append_of_some
    rw [getVal_unionMap, h, ha]
    rfl
  | none =>
    have hmap : getVal (a.map (fun kv =>
        match getVal b kv.1 with
        | some v => (kv.1, v)
        | none => kv)) k = none := by
      rw [getVal_unionMap, h, ha]
      rfl
    rw [getVal_append_of_none _ hmap, getVal_filter_of_none a b k ha]
    exact h

/-- Keys absent from `b` keep the value of `a` in `a | b`. -/
theorem getVal_dictUnion_left (a b : Dict) (k : String)
    (h : getVal b k = none) : getVal (dictUnion a b) k = getVal a k := by
  unfold dictUnion
  cases ha : getVal a k with
  | some w =>
    apply getVal_append_of_some
    rw [getVal_unionMap, h]
    exact ha
  | none =>
    have hmap : getVal (a.map (fun kv =>
        match getVal b kv.1 with
        | some v => (kv.1, v)
        | none => kv)) k = none := by
      rw [getVal_unionMap, h]
      exact ha
    rw [getVal_append_of_none _ hmap, getVal_filter_of_none a b k ha, h]

/-- Every entry appended by the passenger loop is a `passengerDict` of the
event timestamp. -/
theorem processPassenger_entry {ts p : Json} {e : Dict}
    (h : processPassenger ts p = some (some e)) :
    ∃ uci age pt, e = passengerDict ts uci age pt := by
  unfold processPassenger at h
  repeat' split at h
  all_goals
    first
      | (simp only [Option.some.injEq] at h
         exact ⟨_, _, _, h.symm⟩)
      | exact absurd h (by simp)

theorem processPassengers_mem {ts : Json} {ps : List Json} {pes : List Dict}
    (h : processPassengers ts ps = some pes) {e : Dict} (he : e ∈ pes) :
    ∃ uci age pt, e = passengerDict ts uci age pt := by
  induction ps generalizing pes with
  | nil =>
    unfold processPassengers at h
    simp only [Option.some.injEq] at h
    subst h
    simp at he
  | cons p rest ih =>
    unfold processPassengers at h
    split at h
    · exact absurd h (by simp)
    · rename_i r hr
      split at h
      · exact absurd h (by simp)
      · rename_i rs hrs
        simp only [Option.some.injEq] at h
        subst h
        cases r with
        | none => exact ih hrs he
        | some e' =>
          simp only [List.mem_cons] at he
          rcases he with rfl | he
          · exact processPassenger_entry hr
          · exact ih hrs he

/-- Every entry appended by the product loop is a `flightDict`. -/
theorem processProduct_entry {tsOK : String → Bool} {prod : Json} {e : Dict}
    (h : processProduct tsOK prod = some (some e)) :
    ∃ bs oa orig dest dep arr, e = flightDict bs oa orig dest dep arr := by
  unfold processProduct at h
  repeat' split at h
  all_goals
    first
      | (simp only [Option.some.injEq] at h
         exact ⟨_, _, _, _, _, _, h.symm⟩)
      | exact absurd h (by simp)

theorem processProducts_mem {tsOK : String → Bool} {ps : List Json} {fes : List Dict}
    (h : processProducts tsOK ps = some fes) {e : Dict} (he : e ∈ fes) :
    ∃ bs oa orig dest dep arr, e = flightDict bs oa orig dest dep arr := by
  induction ps generalizing fes with
  | nil =>
    unfold processProducts at h
    simp only [Option.some.injEq] at h
    subst h
    simp at he
  | cons p rest ih =>
    unfold processProducts at h
    split at h
    · exact absurd h (by simp)
    · rename_i r hr
      split at h
      · exact absurd h (by simp)
      · rename_i rs hrs
        simp only [Option.some.injEq] at h
        subst h
        cases r with
        | none => exact ih hrs he
        | some e' =>
          simp only [List.mem_cons] at he
          rcases he with rfl | he
          · exact processProduct_entry hr
          · exact ih hrs he

theorem crossRows_length (pes fes : List Dict) :
    (crossRows pes fes).length = pes.length * fes.length := by
  induction pes with
  | nil => simp [crossRows]
  | cons p ps ih =>
    simp only [crossRows, List.length_append, List.length_map, ih, List.length_cons]
    ring

theorem crossRows_mem {pes fes : List Dict} {r : Dict} (h : r ∈ crossRows pes fes) :
    ∃ p ∈ pes, ∃ f ∈ fes, r = dictUnion p f := by
  induction pes with
  | nil => simp [crossRows] at h
  | cons p ps ih =>
    simp only [crossRows, List.mem_append, List.mem_map] at h
    rcases h with ⟨f, hf, rfl⟩ | h
    · exact ⟨p, by simp, f, hf, rfl⟩
    · obtain ⟨p', hp', f, hf, rfl⟩ := ih h
      exact ⟨p', by simp [hp'], f, hf, rfl⟩

/-- Success characterization of `json2tuple`: when the gates pass and the two
loops run without an uncaught exception, the output is exactly the merged
cross product of the surviving entries. -/
theorem json2tuple_result {tsOK : String → Bool} {j ts psv prodv : Json}
    {plist flist : List Json} {pes fes : List Dict}
    (hts : pyGet j "timestamp" = Got.found ts)
    (hok : check_timestamp tsOK ts = true)
    (hp : getPassengers j = some psv)
    (hq : getProducts j = some prodv)
    (hip : pyIter psv = some plist)
    (hpe : processPassengers ts plist = some pes)
    (hm : pes ≠ [])
    (hif : pyIter prodv = some flist)
    (hfe : processProducts tsOK flist = some fes)
    (hn : fes ≠ []) :
    json2tuple tsOK (some j) = some (Output.result (crossRows pes fes)) := by
  obtain ⟨p0, ps0, rfl⟩ := List.exists_cons_of_ne_nil hm
  obtain ⟨f0, fs0, rfl⟩ := List.exists_cons_of_ne_nil hn
  simp only [json2tuple, hts, hok, hp, hq, hip, hpe, hif, hfe, if_true,
    List.isEmpty_cons, Bool.false_eq_true, if_false]

/-- `round9` is the quotient `roundHalfEven (q * 10^9) / 10^9`. -/
theorem round9_eq_div (q : ℚ) :
    CSV2CleanDict.round9 q =
      (CSV2CleanDict.roundHalfEven (q * 10 ^ 9) : ℚ) / 10 ^ 9 := by
  unfold CSV2CleanDict.round9
  rw [Rat.mkRat_eq_div]
  norm_num

theorem int_zero_lor (n : ℤ) : Int.lor 0 n = n := by
  cases n with
  | ofNat m =>
    show Int.lor (Int.ofNat 0) (Int.ofNat m) = Int.ofNat m
    simp [Int.lor]
  | negSucc m =>
    show Int.lor (Int.ofNat 0) (Int.negSucc m) = Int.negSucc m
    simp only [Int.lor]
    congr 1
    simp [Nat.ldiff, Nat.bitwise_zero_right]

theorem crossRows_mem_of {pes fes : List Dict} {p f : Dict}
    (hp : p ∈ pes) (hf : f ∈ fes) : dictUnion p f ∈ crossRows pes fes := by
  induction pes with
  | nil => simp at hp
  | cons q ps ih =>
    simp only [crossRows, List.mem_append, List.mem_map]
    rcases List.mem_cons.mp hp with rfl | hp2
    · exact Or.inl ⟨f, hf, rfl⟩
    · exact Or.inr (ih hp2)

theorem getVal_passengerDict_timestamp (ts u a pt : Json) :
    getVal (passengerDict ts u a pt) "timestamp" = some ts := rfl

theorem getVal_passengerDict_uci (ts u a pt : Json) :
    getVal (passengerDict ts u a pt) "uci" = some u := rfl

theorem getVal_flightDict_timestamp (bs oa orig dest dep arr : Json) :
    getVal (flightDict bs oa orig dest dep arr) "timestamp" = none := rfl

theorem getVal_flightDict_uci (bs oa orig dest dep arr : Json) :
    getVal (flightDict bs oa orig dest dep arr) "uci" = none := rfl

/-- The bookings `check_iata_code` returns `None` whenever it returns. -/
theorem check_iata_code_ok {v r : Json} (h : check_iata_code v = Except.ok r) :
    r = Json.null := by
  unfold check_iata_code at h
  split at h
  · simp only [Except.ok.injEq] at h
    exact h.symm
  · exact Except.noConfusion h

/-- The `origin_airport`/`destination_airport` variable is `None` after its
try/except in every case: whether the key is missing, the code invalid, or the
code valid (the checker returns `None` and the call site binds it). -/
theorem airportFieldOf_null (flight : Json) (key : String) :
    airportFieldOf flight key = Json.null := by
  unfold airportFieldOf
  split
  · split
    · rename_i hok
      exact check_iata_code_ok hok
    · rfl
  · rfl

theorem hasScale9_round9 (q : ℚ) : CSV2CleanDict.hasScale9 (CSV2CleanDict.round9 q) := by
  refine ⟨CSV2CleanDict.roundHalfEven (q * 10 ^ 9), ?_⟩
  rw [round9_eq_div]
  field_simp

end Lemmas

section ClaimTheorems

open JSON2CleanTuple CSV2CleanDict

/-- Claim C1: for every booking event in which m passengers survive
per-passenger processing (m ≥ 1) and n flights survive per-product processing
(n ≥ 1), `json2tuple` returns exactly the m·n clean rows obtained by merging
every passenger-flight pair of the Cartesian product of the surviving entries;
every row carries the shared event timestamp, and in each merge the flight
entry is the later operand of the dict union, so its fields take precedence. -/
theorem c1_cross_product (tsOK : String → Bool) (j ts psv prodv : Json)
    (plist flist : List Json) (pes fes : List Dict)
    (hts : pyGet j "timestamp" = Got.found ts)
    (hok : check_timestamp tsOK ts = true)
    (hp : getPassengers j = some psv)
    (hq : getProducts j = some prodv)
    (hip : pyIter psv = some plist)
    (hpe : processPassengers ts plist = some pes)
    (hm : pes ≠ [])
    (hif : pyIter prodv = some flist)
    (hfe : processProducts tsOK flist = some fes)
    (hn : fes ≠ []) :
    json2tuple tsOK (some j) = some (Output.result (crossRows pes fes)) ∧
    (crossRows pes fes).length = pes.length * fes.length ∧
    (∀ r ∈ crossRows pes fes, getVal r "timestamp" = some ts) ∧
    (∀ p ∈ pes, ∀ f ∈ fes, dictUnion p f ∈ crossRows pes fes ∧
      ∀ k v, getVal f k = some v → getVal (dictUnion p f) k = some v) := by
  refine ⟨json2tuple_result hts hok hp hq hip hpe hm hif hfe hn,
    crossRows_length pes fes, ?_, ?_⟩
  · intro r hr
    obtain ⟨p, hp2, f, hf2, rfl⟩ := crossRows_mem hr
    obtain ⟨u, ag, pt, rfl⟩ := processPassengers_mem hpe hp2
    obtain ⟨bs, oa, orig, dest, dep, arr, rfl⟩ := processProducts_mem hfe hf2
    rw [getVal_dictUnion_left _ _ _ (getVal_flightDict_timestamp bs oa orig dest dep arr)]
    exact getVal_passengerDict_timestamp ts u ag pt
  · intro p hp2 f hf2
    exact ⟨crossRows_mem_of hp2 hf2, fun k v hv => getVal_dictUnion_right _ _ _ hv⟩

/-- Witness for C1: a concrete event with 2 surviving passengers and 2
surviving flights produces the 2·2 merged rows. -/
theorem c1_cross_product_witness :
    processPassengers ts1 [pass1, pass2] = some pes1 ∧
    pes1 ≠ [] ∧
    json2tuple tsOKall (some event1) = some (Output.result (crossRows pes1 fes1)) ∧
    (crossRows pes1 fes1).length = 2 * 2 := by
  have h := c1_cross_product tsOKall event1 ts1 (Json.arr [pass1, pass2])
    (Json.arr [prod1, prod2]) [pass1, pass2] [prod1, prod2] pes1 fes1
    rfl rfl rfl rfl rfl rfl (by simp [pes1]) rfl rfl (by simp [fes1])
  exact ⟨rfl, by simp [pes1], h.1, h.2.1⟩

/-- Claim C2 (code bug): a product whose flight carries the valid 3-character
codes AMS and JFK is not dropped, but its surviving entry holds `null` in
`origin_airport` and `destination_airport` instead of the codes: the bookings
`check_iata_code` returns `None` on success and the call sites at
bookings_pipeline.py:401 and 413-414 bind that return value to the airport
variables. -/
theorem c2_valid_iata_code_nulled :
    pyGet flight1 "originAirport" = Got.found (Json.str "AMS") ∧
    pyGet flight1 "destinationAirport" = Got.found (Json.str "JFK") ∧
    JSON2CleanTuple.check_iata_code (Json.str "AMS") = Except.ok Json.null ∧
    JSON2CleanTuple.check_iata_code (Json.str "JFK") = Except.ok Json.null ∧
    airportFieldOf flight1 "originAirport" = Json.null ∧
    airportFieldOf flight1 "destinationAirport" = Json.null ∧
    processProduct tsOKall prod1 = some (some fe1) ∧
    getVal fe1 "origin_airport" = some Json.null ∧
    getVal fe1 "destination_airport" = some Json.null :=
  ⟨rfl, rfl, rfl, rfl, rfl, rfl, rfl, rfl, rfl⟩

/-- Claim C3 (code bug): `check_age` never signals `InvalidAge` for any
integer age.  The source condition `age < 0 | age > 150` parses as the
chained comparison `age < (0 | age) > 150`, and `0 | age = age`, so the first
comparison `age < age` is always false; integer ages outside 0..150 pass
unreported. -/
theorem c3_check_age_never_signals (n : ℤ) : check_age (Json.int n) = false := by
  show decide (n < Int.lor 0 n ∧ Int.lor 0 n > 150) = false
  rw [int_zero_lor n]
  simp

/-- Claim C4 (code bug): a passenger with uci u3 whose `age` (the string abc)
and `passengerType` (xyz) are present but invalid is included in the output
carrying the raw invalid strings in `age` and `passenger_type`, not `null`:
the warning handlers only log and never reset the variables. -/
theorem c4_invalid_raw_values_kept :
    check_age (Json.str "abc") = true ∧
    check_passenger_type (pyLower "xyz") = false ∧
    processPassenger ts1 pass3 =
      some (some (passengerDict ts1 (Json.str "u3") (Json.str "abc") (Json.str "xyz"))) ∧
    json2tuple tsOKall (some event4) = some (Output.result
      [dictUnion (passengerDict ts1 (Json.str "u3") (Json.str "abc") (Json.str "xyz")) fe2]) ∧
    getVal (dictUnion (passengerDict ts1 (Json.str "u3") (Json.str "abc") (Json.str "xyz")) fe2)
      "age" = some (Json.str "abc") ∧
    getVal (dictUnion (passengerDict ts1 (Json.str "u3") (Json.str "abc") (Json.str "xyz")) fe2)
      "passenger_type" = some (Json.str "xyz") :=
  ⟨rfl, rfl, rfl, rfl, rfl, rfl⟩

/-- Claim C5 (counterexample): a passenger whose `uci` key is present with the
value `null` is not dropped — the event produces a row whose `uci` is `null`,
contradicting both the claim that every output row has a non-null `uci` and
the claim that a null-uci passenger contributes no row. -/
theorem c5_counterexample :
    pyGet pass5 "uci" = Got.found Json.null ∧
    json2tuple tsOKall (some event5) = some (Output.result
      [dictUnion (passengerDict ts1 Json.null Json.null Json.null) fe2]) ∧
    getVal (dictUnion (passengerDict ts1 Json.null Json.null Json.null) fe2) "uci" =
      some Json.null :=
  ⟨rfl, rfl, rfl⟩

/-- Claim C5 (amended): all rows derived from one event share the event
timestamp, and every row has a `uci` field — carrying the raw uci value of its
passenger, which may be `null`; a passenger whose `uci` key is missing is
skipped entirely and contributes no entry. -/
theorem c5_amended (tsOK : String → Bool) (j ts psv prodv : Json)
    (plist flist : List Json) (pes fes : List Dict)
    (hts : pyGet j "timestamp" = Got.found ts)
    (hok : check_timestamp tsOK ts = true)
    (hp : getPassengers j = some psv)
    (hq : getProducts j = some prodv)
    (hip : pyIter psv = some plist)
    (hpe : processPassengers ts plist = some pes)
    (hm : pes ≠ [])
    (hif : pyIter prodv = some flist)
    (hfe : processProducts tsOK flist = some fes)
    (hn : fes ≠ []) :
    json2tuple tsOK (some j) = some (Output.result (crossRows pes fes)) ∧
    (∀ r ∈ crossRows pes fes,
      getVal r "timestamp" = some ts ∧ ∃ v, getVal r "uci" = some v) ∧
    (∀ ts2 p, pyGet p "uci" = Got.missing → processPassenger ts2 p = some none) := by
  refine ⟨json2tuple_result hts hok hp hq hip hpe hm hif hfe hn, ?_, ?_⟩
  · intro r hr
    obtain ⟨p, hp2, f, hf2, rfl⟩ := crossRows_mem hr
    obtain ⟨u, ag, pt, rfl⟩ := processPassengers_mem hpe hp2
    obtain ⟨bs, oa, orig, dest, dep, arr, rfl⟩ := processProducts_mem hfe hf2
    constructor
    · rw [getVal_dictUnion_left _ _ _ (getVal_flightDict_timestamp bs oa orig dest dep arr)]
      exact getVal_passengerDict_timestamp ts u ag pt
    · refine ⟨u, ?_⟩
      rw [getVal_dictUnion_left _ _ _ (getVal_flightDict_uci bs oa orig dest dep arr)]
      exact getVal_passengerDict_uci ts u ag pt
  · intro ts2 p h
    unfold processPassenger
    rw [h]

/-- Witness for the amended C5: instantiated on the concrete `event1`, with a
concrete passenger whose `uci` key is absent being skipped. -/
theorem c5_amended_witness :
    pyGet (Json.obj [("age", Json.int 5)]) "uci" = Got.missing ∧
    processPassenger ts1 (Json.obj [("age", Json.int 5)]) = some none := by
  have h := c5_amended tsOKall event1 ts1 (Json.arr [pass1, pass2])
    (Json.arr [prod1, prod2]) [pass1, pass2] [prod1, prod2] pes1 fes1
    rfl rfl rfl rfl rfl rfl (by simp [pes1]) rfl rfl (by simp [fes1])
  exact ⟨rfl, h.2.2 ts1 (Json.obj [("age", Json.int 5)]) rfl⟩

/-- Claim C6 (code bug): an event whose gates pass but in which no passenger
(resp. no product) survives is rejected with `emptyPassengerMsg` (resp.
`emptyFlightMsg`), and those strings are NOT the clean sentences the
specification states: the single-quoted source literals embed stray `"`
characters and the indentation of their continuation lines. -/
theorem c6_rejection_reason_strings :
    json2tuple tsOKall (some event6p) = some (Output.error emptyPassengerMsg) ∧
    emptyPassengerMsg ≠ "Empty passenger list after processing non-empty json passenger list" ∧
    json2tuple tsOKall (some event6f) = some (Output.error emptyFlightMsg) ∧
    emptyFlightMsg ≠ "Empty flight list after processing non-empty json product list" :=
  ⟨rfl, by decide, rfl, by decide⟩

/-- Claim C7 (code bug): processing does not always emit on exactly one
channel.  A booking document that parses to a non-object — here the JSON array
`[1]` — makes the `timestamp` subscript raise an uncaught `TypeError`, so the
bookings `process` yields nothing on either channel; the airports `process`,
by contrast, always yields exactly one tagged value. -/
theorem c7_crash_on_nonobject_document :
    JSON2CleanTuple.process tsOKall "[1]" (some (Json.arr [Json.int 1])) = none ∧
    ∀ (pf : String → Option ℚ) (tz : String → Bool) (el : String) (flds : List String),
      (CSV2CleanDict.process pf tz el flds).length = 1 := by
  refine ⟨rfl, fun pf tz el flds => ?_⟩
  unfold CSV2CleanDict.process
  cases csv2dict pf tz flds <;> rfl

/-- Claim C8 (counterexample): a 15-field line yields a `CleanAirport` (the
extra field is ignored by `DictReader`) and a 13-field line is rejected with
the reason `Invalid type` (its absent `source` is padded to `None`), so
neither wrong-field-count line is rejected with `Invalid csv`. -/
theorem c8_counterexample :
    airfields15.length = 15 ∧
    csv2dict pfC tzC airfields15 = AOutput.result cleanAir15 ∧
    airfields13.length = 13 ∧
    csv2dict pfC tzC airfields13 = AOutput.error "Invalid type" ∧
    "Invalid type" ≠ "Invalid csv" :=
  ⟨rfl, rfl, rfl, rfl, by decide⟩

/-- Claim C8 (amended): `csv2dict` produces the reason `Invalid csv` exactly
for the input on which the csv reader yields no row (the empty line).  A wrong
field count never produces that reason: short rows are padded with nulls and
fail a later field-level check, long rows have their extra fields ignored. -/
theorem c8_amended (pf : String → Option ℚ) (tz : String → Bool) (fields : List String) :
    csv2dict pf tz fields = AOutput.error "Invalid csv" ↔ fields = [] := by
  constructor
  · intro h
    cases fields with
    | nil => rfl
    | cons f rest =>
      exfalso
      simp only [csv2dict] at h
      repeat' split at h
      all_goals
        first
          | exact absurd h (by decide)
          | exact AOutput.noConfusion h
  · rintro rfl
    rfl

/-- Claim C9 (counterexample): a row whose `timezone_hours` field reads
5.12345678901 passes validation and the parsed value is stored unrounded, with
11 decimal digits of scale — `round9` would change it. -/
theorem c9_counterexample :
    csv2dict pfC tzC airfields9 = AOutput.result cleanAir9 ∧
    cleanAir9.timezone_hours = some (mkRat 512345678901 100000000000) ∧
    round9 (mkRat 512345678901 100000000000) ≠ mkRat 512345678901 100000000000 := by
  refine ⟨rfl, rfl, ?_⟩
  have h1 : (mkRat 512345678901 100000000000 : ℚ) = 512345678901 / 100000000000 := by
    rw [Rat.mkRat_eq_div]
    norm_num
  have h2 : ((512345678901 : ℚ) / 100000000000) * 10 ^ 9 = 512345678901 / 100 := by
    norm_num
  have hf : ⌊(512345678901 : ℚ) / 100⌋ = 5123456789 := by
    rw [Int.floor_eq_iff]
    norm_num
  have h3 : roundHalfEven ((512345678901 : ℚ) / 100) = 5123456789 := by
    unfold roundHalfEven
    rw [hf]
    norm_num
  rw [round9_eq_div, h1, h2, h3]
  norm_num

/-- Claim C9 (amended): on every accepted row, `latitude`, `longitude` and
`altitude` are rounded to at most 9 decimal digits of scale, but
`timezone_hours` is stored exactly as its validator parsed it, without
rounding. -/
theorem c9_amended (pf : String → Option ℚ) (tz : String → Bool)
    (fields : List String) (a : CleanAirport)
    (h : csv2dict pf tz fields = AOutput.result a) :
    hasScale9 a.latitude ∧ hasScale9 a.longitude ∧ hasScale9 a.altitude ∧
    a.timezone_hours = check_timezone_hours pf (dictReader fields).timezone_hours := by
  cases fields with
  | nil => exact AOutput.noConfusion h
  | cons f rest =>
    simp only [csv2dict] at h
    repeat' split at h
    all_goals try exact AOutput.noConfusion h
    simp only [AOutput.result.injEq] at h
    subst h
    exact ⟨hasScale9_round9 _, hasScale9_round9 _, hasScale9_round9 _, rfl⟩

/-- Witness for the amended C9: the accepted concrete row `airfields9`. -/
theorem c9_amended_witness :
    csv2dict pfC tzC airfields9 = AOutput.result cleanAir9 ∧
    hasScale9 cleanAir9.latitude := by
  have h := c9_amended pfC tzC airfields9 cleanAir9 rfl
  exact ⟨rfl, h.1⟩

/-- Claim C10: when a row passes every earlier record-fatal check and its
`source` field is present but not one of ourairports, legacy, user
(case-insensitively), `csv2dict` rejects with the reason `Invalid type` — the
same string used for an invalid `type` field (airports_pipeline.py:553) — and
no input whatsoever produces the reason `Missing source`, since `DictReader`
always populates the key. -/
theorem c10_invalid_source_reason (pf : String → Option ℚ) (tz : String → Bool)
    (fields : List String) (nm ct : String) (lat lon alt : ℚ) (ty s : String)
    (h0 : fields ≠ [])
    (hnm : (dictReader fields).name = some nm)
    (hct : (dictReader fields).city = some ct)
    (hlat : check_latitude pf (dictReader fields).latitude = some lat)
    (hlon : check_longitude pf (dictReader fields).longitude = some lon)
    (halt : check_altitude pf (dictReader fields).altitude = some alt)
    (hty : check_type (dictReader fields).type = some ty)
    (hsrc : (dictReader fields).source = some s)
    (hbad : pyLower s ∉ ["ourairports", "legacy", "user"]) :
    csv2dict pf tz fields = AOutput.error "Invalid type" ∧
    (∀ (pf2 : String → Option ℚ) (tz2 : String → Bool) (flds : List String),
      csv2dict pf2 tz2 flds ≠ AOutput.error "Missing source") := by
  constructor
  · obtain ⟨f, rest, rfl⟩ := List.exists_cons_of_ne_nil h0
    have hs : check_source (dictReader (f :: rest)).source = none := by
      rw [hsrc]
      unfold check_source
      simp [hbad]
    simp only [csv2dict, hnm, hct, hlat, hlon, halt, hty, hs]
  · intro pf2 tz2 flds h
    cases flds with
    | nil =>
      simp only [csv2dict] at h
      exact absurd h (by decide)
    | cons f rest =>
      simp only [csv2dict] at h
      repeat' split at h
      all_goals
        first
          | exact absurd h (by decide)
          | exact AOutput.noConfusion h

/-- Witness for C10: the concrete row whose `source` reads BadSource is
rejected with `Invalid type`. -/
theorem c10_invalid_source_reason_witness :
    (dictReader airfieldsBadSource).source = some "BadSource" ∧
    csv2dict pfC tzC airfieldsBadSource = AOutput.error "Invalid type" := by
  have h := c10_invalid_source_reason pfC tzC airfieldsBadSource "Airport" "City"
    (mkRat 501 10) (mkRat 9 2) 13 "airport" "BadSource"
    (by simp [airfieldsBadSource]) rfl rfl rfl rfl rfl rfl rfl (by decide)
  exact ⟨rfl, h.1⟩

end ClaimTheorems
